import Mathlib

/-!
Verification development for the VibeOS natural-language shell core
(`parser.py`, `commands.py`, `context.py`).

The Python sources are shallowly embedded:

* `NaturalLanguageParser` (parser.py): the regex pattern table is
  transliterated into a small regex AST (`Re`), matched by a
  backtracking engine (`mre`) that mirrors Python `re.match`
  semantics for the features the table uses (anchored-at-start match,
  greedy `*`/`+`/`?`, leftmost alternation preference, numbered
  capture groups).  Character classes are modelled over ASCII, which
  covers every character the claims exercise.
* `CommandExecutor` (commands.py): handlers are modelled as pure
  functions over an explicit filesystem/process abstraction; where a
  handler spawns an external process, the model exposes the spawned
  command line, since the external process itself is not part of the
  program.
* `ContextManager` (context.py): load/save and the history cap are
  modelled as pure state transformers over parsed JSON structures;
  the disk is an `Option` (missing or unparsable file = `none`).
-/

/-! ### Python string primitives (ASCII model) -/

/-- Python `\s` / `str.strip` / `str.split` whitespace characters
(ASCII: space, tab, newline, carriage return, vertical tab, form feed). -/
def isPySpace (c : Char) : Bool :=
  c = ' ' || c = '\t' || c = '\n' || c = '\r' || c = '\x0b' || c = '\x0c'

/-- Python regex `\w` over ASCII: letters, digits, underscore. -/
def isWordChar (c : Char) : Bool :=
  c.isAlphanum || c = '_'

/-- Python `str.lower()` (ASCII). -/
def pylower (s : List Char) : List Char := s.map Char.toLower

/-- Python `str.strip()`: drop leading and trailing whitespace. -/
def pystrip (s : List Char) : List Char :=
  ((s.dropWhile isPySpace).reverse.dropWhile isPySpace).reverse

/-- Splitter shared by `str.split()` and the spec-side comma/space split:
split on runs of characters satisfying `sep`, discarding empty pieces.
`acc` holds the current word reversed. -/
def splitSepAux (sep : Char → Bool) : List Char → List Char → List (List Char)
  | [], acc => if acc.isEmpty then [] else [acc.reverse]
  | c :: rest, acc =>
    if sep c then
      if acc.isEmpty then splitSepAux sep rest []
      else acc.reverse :: splitSepAux sep rest []
    else splitSepAux sep rest (c :: acc)

/-- Python `str.split()` with no argument: split on whitespace runs. -/
def pysplit (s : List Char) : List (List Char) := splitSepAux isPySpace s []

/-- Substring test, Python `needle in haystack`. -/
def containsSub (hay needle : List Char) : Bool :=
  hay.tails.any (fun t => needle.isPrefixOf t)

/-- Python `any(word in s for word in words)`. -/
def containsAny (hay : List Char) (needles : List String) : Bool :=
  needles.any (fun w => containsSub hay w.toList)

/-! ### Regex AST and matching engine

Only the constructs appearing in the parser's pattern table are
modelled.  `mre` enumerates the candidate matches of a regex against
a prefix of the input in exactly Python's backtracking preference
order (greedy repetition first, left alternative first); `reMatch`
takes the first candidate, which is the match `re.match` returns. -/

/-- Character classes used by the pattern table. -/
inductive CCls where
  /-- Class `\w` -/
  | word
  /-- Class `\s` -/
  | space
  /-- Dot `.` (any character except newline) -/
  | any
  /-- A class of the form `[\w ...]`: word characters plus extras,
  e.g. `[\w\-\./]` and `[a-zA-Z0-9_-]` (the latter = `\w` plus `-`). -/
  | wordPlus (extra : List Char)
  /-- An explicit set such as `["']` -/
  | oneOf (cs : List Char)
deriving DecidableEq, Repr

def CCls.test : CCls → Char → Bool
  | .word, c => isWordChar c
  | .space, c => isPySpace c
  | .any, c => c ≠ '\n'
  | .wordPlus extra, c => isWordChar c || extra.contains c
  | .oneOf cs, c => cs.contains c

/-- Regex AST. -/
inductive Re where
  | eps
  | lit (c : Char)
  | cls (k : CCls)
  | seq (a b : Re)
  | alt (a b : Re)
  /-- greedy `?` -/
  | opt (r : Re)
  /-- greedy `*` -/
  | star (r : Re)
  /-- numbered capture group `( ... )` -/
  | group (n : Nat) (r : Re)
deriving DecidableEq, Repr

/-- Captures: group number paired with the captured characters. -/
abbrev Caps := List (Nat × List Char)

/-- Candidate matches of a greedy star whose body's candidates are
enumerated by `matchR`: longer runs first, then the empty run.  Each
iteration is guarded to consume at least one character (Python
likewise never repeats an empty star iteration), so `fuel = s.length
+ 1` is never exhausted. -/
def mstar (matchR : List Char → List (List Char × Caps)) :
    Nat → List Char → List (List Char × Caps)
  | 0, s => [(s, [])]
  | fuel + 1, s =>
    ((matchR s).flatMap (fun p =>
      if p.1.length < s.length then
        (mstar matchR fuel p.1).map (fun q => (q.1, p.2 ++ q.2))
      else [])) ++ [(s, [])]

/-- All candidate matches of `r` against a prefix of `s`, as pairs of
(remaining suffix, captures), in Python backtracking preference order
(greedy repetition first, left alternative first). -/
def mre : Re → List Char → List (List Char × Caps)
  | .eps, s => [(s, [])]
  | .lit _, [] => []
  | .lit c, d :: rest => if d = c then [(rest, [])] else []
  | .cls _, [] => []
  | .cls k, d :: rest => if k.test d then [(rest, [])] else []
  | .seq a b, s =>
    (mre a s).flatMap (fun p =>
      (mre b p.1).map (fun q => (q.1, p.2 ++ q.2)))
  | .alt a b, s => mre a s ++ mre b s
  | .opt r, s => mre r s ++ [(s, [])]
  | .star r, s => mstar (fun t => mre r t) (s.length + 1) s
  | .group n r, s =>
    (mre r s).map (fun p =>
      (p.1, (n, s.take (s.length - p.1.length)) :: p.2))

/-- Python `re.match(pattern, s)`: anchored at the start, returning the
first candidate in backtracking order, or `none`. -/
def reMatch (r : Re) (s : List Char) : Option Caps :=
  ((mre r s).head?).map Prod.snd

/-- Group read `match.group(n)` (the groups the parser reads always exist on a
successful match of the corresponding pattern). -/
def capGroup (n : Nat) (caps : Caps) : List Char :=
  (caps.lookup n).getD []

/-! ### The pattern table (parser.py, `NaturalLanguageParser.patterns`)

Each regex literal from the source is transliterated construct by
construct.  Helpers: `rstr` for a literal word, `rws` for `\s+`,
`rplus`/`rseq` for `+` and concatenation. -/

def rseq (l : List Re) : Re := l.foldr Re.seq Re.eps

def rstr (s : String) : Re := rseq (s.toList.map Re.lit)

/-- Plus `x+` as `x x*`. -/
def rplus (r : Re) : Re := .seq r (.star r)

/-- Whitespace run `\s+` -/
def rws : Re := rplus (.cls .space)

/-- Word run `\w+` -/
def rword : Re := rplus (.cls .word)

/-- Name token `[a-zA-Z0-9_-]+` -/
def rname : Re := rplus (.cls (.wordPlus ['-']))

/-- Package token `[\w\-\./]+` -/
def rpkg : Re := rplus (.cls (.wordPlus ['-', '.', '/']))

/-- Query token `[\w\-]+` -/
def rquery : Re := rplus (.cls (.wordPlus ['-']))

/-- Quote class `["\']` -/
def rquote : Re := .cls (.oneOf ['"', '\''])

/-- Body of `(.+)`: one or more non-newline characters. -/
def rany1 : Re := rplus (.cls .any)

/-- The table `self.patterns`, in the dict's (insertion) order, each intent with
its pattern list in source order. -/
def patterns : List (String × List Re) :=
  [ ("create_project",
     [ -- create\s+(?:a\s+)?new\s+(\w+)\s+project\s+(?:called\s+|named\s+)?([a-zA-Z0-9_-]+)
       rseq [rstr "create", rws, .opt (rseq [rstr "a", rws]), rstr "new", rws,
             .group 1 rword, rws, rstr "project", rws,
             .opt (.alt (rseq [rstr "called", rws]) (rseq [rstr "named", rws])),
             .group 2 rname],
       -- start\s+(?:a\s+)?new\s+(\w+)\s+project\s+([a-zA-Z0-9_-]+)
       rseq [rstr "start", rws, .opt (rseq [rstr "a", rws]), rstr "new", rws,
             .group 1 rword, rws, rstr "project", rws, .group 2 rname],
       -- init\s+(\w+)\s+project\s+([a-zA-Z0-9_-]+)
       rseq [rstr "init", rws, .group 1 rword, rws, rstr "project", rws,
             .group 2 rname] ]),
    ("install_package",
     [ -- install\s+([\w\-\./]+(?:\s+[\w\-\./]+)*)
       rseq [rstr "install", rws, .group 1 (rseq [rpkg, .star (rseq [rws, rpkg])])],
       -- add\s+([\w\-\./]+(?:\s+[\w\-\./]+)*)
       rseq [rstr "add", rws, .group 1 (rseq [rpkg, .star (rseq [rws, rpkg])])],
       -- get\s+([\w\-\./]+(?:\s+[\w\-\./]+)*)
       rseq [rstr "get", rws, .group 1 (rseq [rpkg, .star (rseq [rws, rpkg])])] ]),
    ("search_package",
     [ -- search\s+(?:for\s+)?([\w\-]+)
       rseq [rstr "search", rws, .opt (rseq [rstr "for", rws]), .group 1 rquery],
       -- find\s+package\s+([\w\-]+)
       rseq [rstr "find", rws, rstr "package", rws, .group 1 rquery],
       -- look\s+for\s+([\w\-]+)
       rseq [rstr "look", rws, rstr "for", rws, .group 1 rquery] ]),
    ("git_status",
     [ rseq [rstr "git", rws, rstr "status"],
       rseq [rstr "show", rws, rstr "git", rws, rstr "status"],
       -- what\'?s?\s+changed
       rseq [rstr "what", .opt (.lit '\''), .opt (.lit 's'), rws, rstr "changed"],
       rseq [rstr "show", rws, rstr "changes"] ]),
    ("git_commit",
     [ -- commit\s+(?:changes\s+)?(?:with\s+message\s+)?["\'](.+)["\']
       rseq [rstr "commit", rws, .opt (rseq [rstr "changes", rws]),
             .opt (rseq [rstr "with", rws, rstr "message", rws]),
             rquote, .group 1 rany1, rquote],
       -- git\s+commit\s+["\'](.+)["\']
       rseq [rstr "git", rws, rstr "commit", rws, rquote, .group 1 rany1, rquote],
       -- save\s+changes\s+["\'](.+)["\']
       rseq [rstr "save", rws, rstr "changes", rws, rquote, .group 1 rany1, rquote] ]),
    ("git_push",
     [ -- push\s+(?:to\s+)?(?:remote)?
       rseq [rstr "push", rws, .opt (rseq [rstr "to", rws]), .opt (rstr "remote")],
       rseq [rstr "git", rws, rstr "push"],
       rseq [rstr "upload", rws, rstr "changes"] ]),
    ("git_pull",
     [ -- pull\s+(?:from\s+)?(?:remote)?
       rseq [rstr "pull", rws, .opt (rseq [rstr "from", rws]), .opt (rstr "remote")],
       rseq [rstr "git", rws, rstr "pull"],
       rseq [rstr "update", rws, rstr "from", rws, rstr "remote"] ]),
    ("git_init",
     [ -- init(?:ialize)?\s+git(?:\s+repo(?:sitory)?)?
       rseq [rstr "init", .opt (rstr "ialize"), rws, rstr "git",
             .opt (rseq [rws, rstr "repo", .opt (rstr "sitory")])],
       -- create\s+git\s+repo(?:sitory)?
       rseq [rstr "create", rws, rstr "git", rws, rstr "repo", .opt (rstr "sitory")],
       rseq [rstr "start", rws, rstr "version", rws, rstr "control"] ]),
    ("run_tests",
     [ -- run\s+tests?
       rseq [rstr "run", rws, rstr "test", .opt (.lit 's')],
       -- test\s+(?:the\s+)?(?:project|code)
       rseq [rstr "test", rws, .opt (rseq [rstr "the", rws]),
             .alt (rstr "project") (rstr "code")],
       rseq [rstr "execute", rws, rstr "test", .opt (.lit 's')] ]),
    ("build_project",
     [ rseq [rstr "build", rws, .opt (rseq [rstr "the", rws]), rstr "project"],
       rseq [rstr "compile", rws, .opt (rseq [rstr "the", rws]),
             .alt (rstr "project") (rstr "code")],
       rseq [rstr "make", rws, .opt (rseq [rstr "the", rws]), rstr "project"] ]),
    ("start_dev_server",
     [ -- start\s+(?:dev(?:elopment)?\s+)?server
       rseq [rstr "start", rws, .opt (rseq [rstr "dev", .opt (rstr "elopment"), rws]),
             rstr "server"],
       rseq [rstr "run", rws, .opt (rseq [rstr "dev", .opt (rstr "elopment"), rws]),
             rstr "server"],
       rseq [rstr "launch", rws, .opt (rseq [rstr "dev", .opt (rstr "elopment"), rws]),
             rstr "server"] ]),
    ("system_info",
     [ -- show\s+system\s+(?:info(?:rmation)?|status)
       rseq [rstr "show", rws, rstr "system", rws,
             .alt (rseq [rstr "info", .opt (rstr "rmation")]) (rstr "status")],
       rseq [rstr "system", rws,
             .alt (rseq [rstr "info", .opt (rstr "rmation")]) (rstr "status")],
       -- what\'?s?\s+(?:the\s+)?system\s+status
       rseq [rstr "what", .opt (.lit '\''), .opt (.lit 's'), rws,
             .opt (rseq [rstr "the", rws]), rstr "system", rws, rstr "status"] ]),
    ("disk_usage",
     [ -- (?:show\s+)?disk\s+(?:usage|space)
       rseq [.opt (rseq [rstr "show", rws]), rstr "disk", rws,
             .alt (rstr "usage") (rstr "space")],
       -- how\s+much\s+(?:disk\s+)?space
       rseq [rstr "how", rws, rstr "much", rws, .opt (rseq [rstr "disk", rws]),
             rstr "space"],
       rseq [rstr "check", rws, rstr "storage"] ]),
    ("list_processes",
     [ -- (?:show\s+|list\s+)?(?:running\s+)?processes
       rseq [.opt (.alt (rseq [rstr "show", rws]) (rseq [rstr "list", rws])),
             .opt (rseq [rstr "running", rws]), rstr "processes"],
       rseq [rstr "what", .opt (.lit '\''), .opt (.lit 's'), rws, rstr "running"],
       rseq [rstr "show", rws, rstr "tasks"] ]),
    ("change_directory",
     [ -- (?:go\s+to|cd\s+to?|change\s+to|navigate\s+to)\s+(.+)
       rseq [.alt (rseq [rstr "go", rws, rstr "to"])
               (.alt (rseq [rstr "cd", rws, .lit 't', .opt (.lit 'o')])
                 (.alt (rseq [rstr "change", rws, rstr "to"])
                   (rseq [rstr "navigate", rws, rstr "to"]))),
             rws, .group 1 rany1],
       -- enter\s+(.+)\s+(?:directory|folder)
       rseq [rstr "enter", rws, .group 1 rany1, rws,
             .alt (rstr "directory") (rstr "folder")] ]),
    ("list_files",
     [ -- (?:list|show|ls)\s+(?:files?|directory|folder)?
       rseq [.alt (rstr "list") (.alt (rstr "show") (rstr "ls")), rws,
             .opt (.alt (rseq [rstr "file", .opt (.lit 's')])
                    (.alt (rstr "directory") (rstr "folder")))],
       -- what\'?s?\s+(?:in\s+)?(?:here|this\s+(?:directory|folder))
       rseq [rstr "what", .opt (.lit '\''), .opt (.lit 's'), rws,
             .opt (rseq [rstr "in", rws]),
             .alt (rstr "here")
               (rseq [rstr "this", rws, .alt (rstr "directory") (rstr "folder")])] ]),
    ("show_pwd",
     [ -- (?:show\s+)?(?:current\s+)?(?:directory|folder|pwd|path)
       rseq [.opt (rseq [rstr "show", rws]), .opt (rseq [rstr "current", rws]),
             .alt (rstr "directory")
               (.alt (rstr "folder") (.alt (rstr "pwd") (rstr "path")))],
       rseq [rstr "where", rws, rstr "am", rws, rstr "i"] ]),
    ("create_venv",
     [ -- create\s+(?:a\s+)?(?:virtual\s+)?env(?:ironment)?
       rseq [rstr "create", rws, .opt (rseq [rstr "a", rws]),
             .opt (rseq [rstr "virtual", rws]), rstr "env", .opt (rstr "ironment")],
       rseq [rstr "make", rws, .opt (rseq [rstr "a", rws]), rstr "venv"],
       rseq [rstr "setup", rws, .opt (rseq [rstr "virtual", rws]), rstr "env",
             .opt (rstr "ironment")] ]),
    ("activate_venv",
     [ rseq [rstr "activate", rws, .opt (rseq [rstr "virtual", rws]), rstr "env",
             .opt (rstr "ironment")],
       rseq [rstr "enter", rws, .opt (rseq [rstr "virtual", rws]), rstr "env",
             .opt (rstr "ironment")],
       rseq [rstr "use", rws, rstr "venv"] ]),
    ("update_system",
     [ rseq [rstr "update", rws, .opt (rseq [rstr "the", rws]), rstr "system"],
       rseq [rstr "upgrade", rws, .opt (rseq [rstr "system", rws]), rstr "packages"],
       rseq [rstr "system", rws, rstr "update"] ]) ]

/-! ### `NaturalLanguageParser.parse` -/

/-- Parameter values: a string or a list of strings. -/
inductive PValue where
  | str (s : String)
  | list (l : List String)
deriving DecidableEq, Repr

/-- A parameter dict, in insertion order. -/
abbrev Params := List (String × PValue)

/-- Normalization `input_text.lower().strip()` -/
def normalizeInput (input : String) : List Char := pystrip (pylower input.toList)

/-- Inner loop of `parse`: try an intent's patterns in order. -/
def find_pat : List Re → List Char → Option Caps
  | [], _ => none
  | p :: rest, s =>
    match reMatch p s with
    | some caps => some caps
    | none => find_pat rest s

/-- Outer loop of `parse`: try intents in table order. -/
def find_match : List (String × List Re) → List Char → Option (String × Caps)
  | [], _ => none
  | (intent, ps) :: rest, s =>
    match find_pat ps s with
    | some caps => some (intent, caps)
    | none => find_match rest s

/-- Body of `_extract_params`: build the parameter dict for a matched intent. -/
def extracted_params (intent : String) (caps : Caps) : Params :=
  if intent = "create_project" then
    [("type", .str (String.mk (capGroup 1 caps))),
     ("name", .str (String.mk (capGroup 2 caps)))]
  else if intent = "install_package" then
    [("packages", .list ((pysplit (capGroup 1 caps)).map String.mk))]
  else if intent = "search_package" then
    [("query", .str (String.mk (capGroup 1 caps)))]
  else if intent = "git_commit" then
    [("message", .str (String.mk (capGroup 1 caps)))]
  else if intent = "change_directory" then
    [("path", .str (String.mk (capGroup 1 caps)))]
  else []

/-- Return value of `_extract_params`: `(intent, params)`. -/
def extract_params (intent : String) (caps : Caps) : String × Params :=
  (intent, extracted_params intent caps)

/-- Fallback `_fallback_parse`: keyword classifier over the lowercased (but not
stripped) input; `query` carries the original text. -/
def fallback_parse (input : String) : String × Params :=
  let input_lower := pylower input.toList
  if containsAny input_lower ["create", "new", "make"] then
    ("suggest_create", [("query", .str input)])
  else if containsAny input_lower ["install", "add", "get"] then
    ("suggest_install", [("query", .str input)])
  else if containsSub input_lower "git".toList then
    ("suggest_git", [("query", .str input)])
  else if containsAny input_lower ["show", "list", "display"] then
    ("suggest_show", [("query", .str input)])
  else
    ("unknown", [("query", .str input)])

/-- Top-level `NaturalLanguageParser.parse`. -/
def parse (input : String) : String × Params :=
  match find_match patterns (normalizeInput input) with
  | some (intent, caps) => extract_params intent caps
  | none => fallback_parse input

/-- The table flattened to (intent, pattern) pairs in intent-then-pattern
order; `parse` tries exactly these in order. -/
def flatPatterns : List (String × Re) :=
  patterns.flatMap (fun ip => ip.2.map (fun r => (ip.1, r)))

/-! ### Execution results (commands.py)

Handlers return Python dicts with a `success` key and optional
`output`/`error` keys; absent keys are modelled as `none`. -/

structure CmdResult where
  success : Bool
  output : Option String := none
  error : Option String := none
deriving DecidableEq, Repr

/-! ### `ContextManager` (context.py) -/

/-- One command-history entry (`ContextManager.add_command`). -/
structure HistEntry where
  timestamp : String
  command : String
  intent : String
  success : Bool
  directory : String
deriving DecidableEq, Repr

/-- The truncation `save` applies before writing the history file:
`if len(self.command_history) > 1000: self.command_history =
self.command_history[-1000:]`.  `save` also leaves the truncated list
in memory, so the persisted file and the in-memory history coincide
after every save. -/
def save_truncate (h : List HistEntry) : List HistEntry :=
  if h.length > 1000 then h.drop (h.length - 1000) else h

/-- Effect of `add_command` on the history: append the new entry, then
`save` (which truncates and persists). -/
def add_command (h : List HistEntry) (e : HistEntry) : List HistEntry :=
  save_truncate (h ++ [e])

/-- Record a whole sequence of commands starting from an empty history;
the result is the persisted history file after the last save. -/
def record_all (cs : List HistEntry) : List HistEntry :=
  cs.foldl add_command []

/-- Marker files present in the current working directory, as probed by
`detect_project` (context.py) and `_install_package` (commands.py). -/
structure Markers where
  packageJson : Bool
  requirementsTxt : Bool
  setupPy : Bool
  cargoToml : Bool
  goMod : Bool
  makefile : Bool
deriving DecidableEq, Repr

/-- The `type` field computed by `detect_project`: the source's
if/elif chain over marker files, in source order.  (The other
`project_info` fields — `has_git`, `framework`, … — do not influence
`type` and are not modelled.) -/
def detect_project_type (d : Markers) : String :=
  if d.packageJson then "node"
  else if d.requirementsTxt || d.setupPy then "python"
  else if d.cargoToml then "rust"
  else if d.goMod then "go"
  else if d.makefile then "make"
  else "unknown"

/-! ### JSON values and `ContextManager` load/save (context.py)

`context.json` and `command_history.json` hold JSON documents; a disk
file is `none` when missing or unparsable (the bare `except` in
`_load_context` / `_load_history` treats both alike).  JSON numbers
beyond integers never occur in this state and are modelled as `Int`. -/

inductive JVal where
  | null
  | bool (b : Bool)
  | num (n : Int)
  | str (s : String)
  | arr (elems : List JVal)
  | obj (fields : List (String × JVal))

/-- The default context built when `context.json` is missing or
unreadable (`_load_context`); `editor` and `shell` come from the
environment with the source's fallbacks applied. -/
def default_context (editor shell : String) : JVal :=
  .obj [("current_project", .null),
        ("project_type", .null),
        ("recent_commands", .arr []),
        ("preferences", .obj [("editor", .str editor),
                              ("shell", .str shell),
                              ("package_manager", .str "auto")]),
        ("environment", .obj [("virtual_env", .null),
                              ("node_version", .null),
                              ("python_version", .null)])]

/-- In-memory state after `__init__`: `self.context` and
`self.command_history`. -/
structure CtxState where
  context : JVal
  history : List JVal

/-- Loader `_load_context`. -/
def load_context (disk : Option JVal) (editor shell : String) : JVal :=
  disk.getD (default_context editor shell)

/-- Loader `_load_history` (the history file holds a JSON array). -/
def load_history (disk : Option (List JVal)) : List JVal :=
  disk.getD []

/-- Constructor `__init__`: load both files. -/
def load_state (ctxDisk : Option JVal) (histDisk : Option (List JVal))
    (editor shell : String) : CtxState :=
  ⟨load_context ctxDisk editor shell, load_history histDisk⟩

/-- History truncation in `save`, on parsed-JSON entries. -/
def save_truncate_json (h : List JVal) : List JVal :=
  if h.length > 1000 then h.drop (h.length - 1000) else h

/-- Effect of `save`: the parsed contents of the two files it writes
(`context.json`, `command_history.json`). -/
def save_files (st : CtxState) : JVal × List JVal :=
  (st.context, save_truncate_json st.history)

/-! ### `CommandExecutor._install_package` (commands.py)

The handler validates the package list, picks a toolchain from marker
files, and spawns the resulting command line; the model exposes the
spawned command and manager name, since the spawned process is
external. -/

/-- Toolchain choice and command line built by `_install_package`. -/
def install_command (d : Markers) (packages : List String) :
    List String × String :=
  if d.packageJson then
    (["npm", "install"] ++ packages, "npm")
  else if d.requirementsTxt || d.setupPy then
    (["pip", "install"] ++ packages, "pip")
  else
    (["sudo", "pacman", "-S", "--noconfirm"] ++ packages, "pacman")

/-- Handler `_install_package` up to the spawn: either the early error or the
command line handed to `_run_command`. -/
def install_package (d : Markers) (packages : List String) :
    Except CmdResult (List String × String) :=
  if packages.isEmpty then
    .error { success := false, error := some "No packages specified" }
  else
    .ok (install_command d packages)

/-! ### `CommandExecutor._change_directory` (commands.py) -/

/-- Outcome of `os.chdir(path)` followed by `os.getcwd()`: success with
the resulting working directory, `FileNotFoundError`, or any other
exception with its message. -/
inductive ChdirOutcome where
  | ok (newCwd : String)
  | notFound
  | failure (msg : String)

/-- Expansion `os.path.expanduser` for the forms the shell produces: a bare `~`
or a `~/`-prefixed path expands to the home directory; anything else
is returned unchanged.  (`~user` forms are not modelled; no caller
produces them.) -/
def expanduser (home : String) (p : String) : String :=
  if p = "~" then home
  else if "~/".toList.isPrefixOf p.toList then home ++ String.mk (p.toList.drop 1)
  else p

/-- Handler `_change_directory`: expand the path (default `~`), attempt
`os.chdir`, and convert exceptions to error results.  `chdir` models
the filesystem's response to `os.chdir` at each path. -/
def change_directory (home : String) (chdir : String → ChdirOutcome)
    (path? : Option String) : CmdResult :=
  let path := expanduser home (path?.getD "~")
  match chdir path with
  | .ok newCwd => { success := true, output := some ("Changed to: " ++ newCwd) }
  | .notFound => { success := false, error := some ("Directory not found: " ++ path) }
  | .failure msg => { success := false, error := some msg }

/-! ### `CommandExecutor._create_project` (commands.py)

The filesystem is modelled as the set of existing paths plus the
process working directory; file contents are not tracked (no claim
depends on them).  Relative names are resolved against the current
working directory, as `Path(project_name)` does for the slash-free
names the parser produces. -/

structure FsState where
  cwd : String
  existing : List String
deriving DecidableEq, Repr

def joinPath (cwd name : String) : String := cwd ++ "/" ++ name

/-- Lookup `params.get(key, default)` for the string-valued parameters
`_create_project` reads. -/
def param_get (params : List (String × String)) (key dflt : String) : String :=
  (params.lookup key).getD dflt

/-- Success message for the Python branch. -/
def python_project_msg (name : String) : String :=
  "✓ Created Python project \x27" ++ name ++ "\x27\n" ++
  "  Structure:\n" ++
  "    " ++ name ++ "/\n" ++
  "    ├── src/main.py\n" ++
  "    ├── tests/\n" ++
  "    ├── docs/\n" ++
  "    ├── requirements.txt\n" ++
  "    ├── .gitignore\n" ++
  "    └── README.md\n\n" ++
  "  Next steps:\n" ++
  "    • Create virtual environment: \x27create virtual environment\x27\n" ++
  "    • Initialize git: \x27init git repository\x27"

/-- Success message for the Node branch. -/
def node_project_msg (name : String) : String :=
  "✓ Created Node.js project \x27" ++ name ++ "\x27\n" ++
  "  Structure:\n" ++
  "    " ++ name ++ "/\n" ++
  "    ├── index.js\n" ++
  "    ├── src/\n" ++
  "    ├── tests/\n" ++
  "    ├── package.json\n" ++
  "    ├── .gitignore\n" ++
  "    └── README.md\n\n" ++
  "  Next steps:\n" ++
  "    • Install dependencies: \x27install npm packages\x27\n" ++
  "    • Initialize git: \x27init git repository\x27"

/-- Success message for the React branch. -/
def react_project_msg (name : String) : String :=
  "To create a React project, I\x27ll use create-react-app.\n" ++
  "Run: npx create-react-app " ++ name

/-- Success message for the generic branch. -/
def generic_project_msg (name : String) : String :=
  "✓ Created project \x27" ++ name ++ "\x27\n" ++
  "  Basic structure created in " ++ name ++ "/"

/-- Handler `_create_project`: returns the handler's result dict together with
the filesystem/process state after the call. -/
def create_project (params : List (String × String)) (st : FsState) :
    CmdResult × FsState :=
  let project_type := param_get params "type" "python"
  let project_name := param_get params "name" "myproject"
  let project_path := joinPath st.cwd project_name
  if st.existing.contains project_path then
    ({ success := false,
       error := some ("Directory " ++ project_name ++ " already exists") }, st)
  else
    -- project_path.mkdir(); os.chdir(project_path)
    let st1 : FsState := { cwd := project_path,
                           existing := st.existing ++ [project_path] }
    if project_type = "python" || project_type = "py" then
      ({ success := true, output := some (python_project_msg project_name) },
       { st1 with existing := st1.existing ++
           [joinPath project_path "src", joinPath project_path "tests",
            joinPath project_path "docs", joinPath project_path "src/main.py",
            joinPath project_path ".gitignore",
            joinPath project_path "requirements.txt",
            joinPath project_path "README.md"] })
    else if project_type = "node" || project_type = "nodejs" ||
            project_type = "javascript" || project_type = "js" then
      ({ success := true, output := some (node_project_msg project_name) },
       { st1 with existing := st1.existing ++
           [joinPath project_path "src", joinPath project_path "tests",
            joinPath project_path "package.json",
            joinPath project_path "index.js",
            joinPath project_path ".gitignore",
            joinPath project_path "README.md"] })
    else if project_type = "react" then
      ({ success := true, output := some (react_project_msg project_name) }, st1)
    else
      ({ success := true, output := some (generic_project_msg project_name) },
       { st1 with existing := st1.existing ++
           [joinPath project_path "src", joinPath project_path "docs",
            joinPath project_path "README.md"] })

/-! ### Spec-side definition for comparison (claim C4)

The spec says `install_package` parameters are built by
"comma/space-split group 1 into a list"; this definition follows those
words (split on commas and spaces), to be compared against the
source's `str.split()` (whitespace split). -/

/-- Modelled from the spec: "comma/space-split group 1 into a list". -/
def spec_commaSpaceSplit (s : List Char) : List (List Char) :=
  splitSepAux (fun c => c = ',' || c = ' ') s []

/-! ### Parser loop lemmas -/

/-- The nested loop of `parse` over the table, viewed over the flattened
(intent, pattern) list. -/
def find_match_flat : List (String × Re) → List Char → Option (String × Caps)
  | [], _ => none
  | (intent, p) :: rest, s =>
    match reMatch p s with
    | some caps => some (intent, caps)
    | none => find_match_flat rest s

theorem find_match_flat_append_map (intent : String) (ps : List Re)
    (rest : List (String × Re)) (s : List Char) :
    find_match_flat (ps.map (fun r => (intent, r)) ++ rest) s =
      match find_pat ps s with
      | some caps => some (intent, caps)
      | none => find_match_flat rest s := by
  induction ps with
  | nil => simp [find_pat]
  | cons p ps ih =>
    simp only [List.map_cons, List.cons_append, find_match_flat, find_pat]
    cases reMatch p s <;> simp [ih]

/-- The nested table loop equals the loop over the flattened list. -/
theorem find_match_eq_flat (t : List (String × List Re)) (s : List Char) :
    find_match t s =
      find_match_flat (t.flatMap (fun ip => ip.2.map (fun r => (ip.1, r)))) s := by
  induction t with
  | nil => rfl
  | cons ip rest ih =>
    obtain ⟨intent, ps⟩ := ip
    simp only [List.flatMap_cons, find_match]
    rw [find_match_flat_append_map]
    cases find_pat ps s <;> simp [ih]

/-- First-match-wins over the flattened list. -/
theorem find_match_flat_first (pre : List (String × Re)) (I : String) (p : Re)
    (post : List (String × Re)) (s : List Char) (caps : Caps)
    (hpre : ∀ q ∈ pre, reMatch q.2 s = none)
    (hp : reMatch p s = some caps) :
    find_match_flat (pre ++ (I, p) :: post) s = some (I, caps) := by
  induction pre with
  | nil => simp [find_match_flat, hp]
  | cons q rest ih =>
    obtain ⟨i0, p0⟩ := q
    have hq : reMatch p0 s = none := hpre (i0, p0) (by simp)
    simp only [List.cons_append, find_match_flat, hq]
    exact ih (fun q hqmem => hpre q (by simp [hqmem]))

/-- C1: for every input string, if some pattern of intent `I` matches
the normalized (trimmed, lowercased) input and that pattern precedes,
in table order (intents in the table's defined order, then each
intent's patterns in list order), every other matching pattern, then
`parse` returns intent `I` — first match by intent-then-pattern order
wins, with no ranking by specificity or length. -/
theorem claim_C1_first_match_wins (input : String) (I : String) (p : Re)
    (pre post : List (String × Re))
    (hflat : flatPatterns = pre ++ (I, p) :: post)
    (hmatch : reMatch p (normalizeInput input) ≠ none)
    (hpre : ∀ q ∈ pre, reMatch q.2 (normalizeInput input) = none) :
    (parse input).1 = I := by
  obtain ⟨caps, hcaps⟩ : ∃ c, reMatch p (normalizeInput input) = some c := by
    cases h : reMatch p (normalizeInput input)
    · exact absurd h hmatch
    · exact ⟨_, rfl⟩
  have h1 : find_match patterns (normalizeInput input) = some (I, caps) := by
    rw [find_match_eq_flat]
    rw [show (patterns.flatMap fun ip => ip.2.map fun r => (ip.1, r)) =
          flatPatterns from rfl, hflat]
    exact find_match_flat_first pre I p post _ caps hpre hcaps
  simp [parse, h1, extract_params]

/-- Witness for C1 at the input `"create a new python project called
demo"`, whose first matching pattern is the very first table entry. -/
theorem claim_C1_witness :
    (flatPatterns = [] ++
      ("create_project",
       rseq [rstr "create", rws, .opt (rseq [rstr "a", rws]), rstr "new", rws,
             .group 1 rword, rws, rstr "project", rws,
             .opt (.alt (rseq [rstr "called", rws]) (rseq [rstr "named", rws])),
             .group 2 rname]) :: flatPatterns.tail) ∧
    (parse "create a new python project called demo").1 = "create_project" := by
  refine ⟨rfl, ?_⟩
  exact claim_C1_first_match_wins _ _ _ [] _ rfl (by decide) (by simp)

/-- C4 (counterexample): the claim says `parse` comma/space-splits
capture group 1.  On `"install numpy\tpandas"` the first table match
is the first `install_package` pattern with group 1 =
`"numpy\tpandas"` (`\s+` matches the tab), and `str.split()` splits at
the tab, while a comma/space split would keep `"numpy\tpandas"`
whole: the claimed parameters differ from what `parse` returns. -/
theorem claim_C4_counterexample :
    find_match patterns (normalizeInput "install numpy\tpandas") =
      some ("install_package", [(1, "numpy\tpandas".toList)]) ∧
    parse "install numpy\tpandas" =
      ("install_package", [("packages", PValue.list ["numpy", "pandas"])]) ∧
    ("install_package",
      [("packages", PValue.list
        ((spec_commaSpaceSplit (capGroup 1 [(1, "numpy\tpandas".toList)])).map String.mk))]) ≠
      parse "install numpy\tpandas" := by
  exact ⟨by decide, by decide, by decide⟩

/-- C4 (amended): for every input whose first table match (by
intent-then-pattern order) is an `install_package` pattern, `parse`
whitespace-splits capture group 1 into the `packages` list of the
returned parameters (group 1 never contains a comma, so a comma never
acts as a separator). -/
theorem claim_C4_install_split (input : String) (caps : Caps)
    (h : find_match patterns (normalizeInput input) = some ("install_package", caps)) :
    parse input = ("install_package",
      [("packages", PValue.list ((pysplit (capGroup 1 caps)).map String.mk))]) := by
  unfold parse
  rw [h]
  rfl

/-- Witness for the amended C4 at the spec's own example
`parse("install numpy pandas")`. -/
theorem claim_C4_witness :
    find_match patterns (normalizeInput "install numpy pandas") =
      some ("install_package", [(1, "numpy pandas".toList)]) ∧
    parse "install numpy pandas" =
      ("install_package", [("packages", PValue.list ["numpy", "pandas"])]) := by
  have h : find_match patterns (normalizeInput "install numpy pandas") =
      some ("install_package", [(1, "numpy pandas".toList)]) := by decide
  exact ⟨h, (claim_C4_install_split _ _ h).trans (by decide)⟩

/-- C5: for every input string matching no pattern in the table,
`parse` applies the fallback keyword classifier in the fixed priority
order create > install > git > show, and otherwise returns intent
`unknown` with the original, unmodified input text carried as the
`query` parameter. -/
theorem claim_C5_fallback (input : String)
    (h : find_match patterns (normalizeInput input) = none) :
    parse input =
      (if containsAny (pylower input.toList) ["create", "new", "make"] then
        ("suggest_create", [("query", PValue.str input)])
      else if containsAny (pylower input.toList) ["install", "add", "get"] then
        ("suggest_install", [("query", PValue.str input)])
      else if containsSub (pylower input.toList) "git".toList then
        ("suggest_git", [("query", PValue.str input)])
      else if containsAny (pylower input.toList) ["show", "list", "display"] then
        ("suggest_show", [("query", PValue.str input)])
      else ("unknown", [("query", PValue.str input)])) := by
  unfold parse
  rw [h]
  rfl

/-- Witness for C5 at `parse("gibberish zyx")`: no pattern matches and
the result is `unknown` with the original text preserved. -/
theorem claim_C5_witness :
    find_match patterns (normalizeInput "gibberish zyx") = none ∧
    parse "gibberish zyx" = ("unknown", [("query", PValue.str "gibberish zyx")]) := by
  have h : find_match patterns (normalizeInput "gibberish zyx") = none := by decide
  exact ⟨h, (claim_C5_fallback _ h).trans (by decide)⟩

/-- C6: `parse "create a new python project called demo"` returns
`("create_project", {type: "python", name: "demo"})`. -/
theorem claim_C6_create_demo :
    parse "create a new python project called demo" =
      ("create_project", [("type", PValue.str "python"),
                          ("name", PValue.str "demo")]) := by
  decide

/-! ### History-cap lemmas (claim C2) -/

theorem record_all_snoc (cs : List HistEntry) (e : HistEntry) :
    record_all (cs ++ [e]) = add_command (record_all cs) e := by
  simp [record_all, List.foldl_append]

/-- After recording any sequence of commands from an empty history,
what is persisted is the suffix of the most recent 1000 (the whole
sequence when it is shorter). -/
theorem record_all_eq (cs : List HistEntry) :
    record_all cs = cs.drop (cs.length - 1000) := by
  induction cs using List.reverseRecOn with
  | nil => rfl
  | append_singleton cs e ih =>
    rw [record_all_snoc, ih, add_command, save_truncate]
    by_cases hle : cs.length ≤ 1000
    · have h0 : cs.length - 1000 = 0 := by omega
      rw [h0, List.drop_zero]
      by_cases h1 : (cs ++ [e]).length > 1000
      · rw [if_pos h1]
      · rw [if_neg h1]
        have : (cs ++ [e]).length - 1000 = 0 := by
          simp at h1 ⊢; omega
        rw [this, List.drop_zero]
    · have hlen : (cs.drop (cs.length - 1000)).length = 1000 := by
        rw [List.length_drop]; omega
      have h1 : (cs.drop (cs.length - 1000) ++ [e]).length > 1000 := by
        simp [hlen]
      rw [if_pos h1]
      have hamt : (cs.drop (cs.length - 1000) ++ [e]).length - 1000 = 1 := by
        simp [hlen]
      rw [hamt]
      have h2 : (1 : Nat) ≤ (cs.drop (cs.length - 1000)).length := by omega
      rw [List.drop_append_of_le_length h2, List.drop_drop]
      have h3 : (cs.length - 1000) + 1 = (cs ++ [e]).length - 1000 := by
        simp only [List.length_append, List.length_cons, List.length_nil]
        omega
      rw [h3]
      have h4 : (cs ++ [e]).length - 1000 ≤ cs.length := by
        simp only [List.length_append, List.length_cons, List.length_nil]
        omega
      rw [List.drop_append_of_le_length h4]

/-- C2: for every sequence of more than 1000 recorded commands (each
record appends an entry and persists), the persisted command-history
file after each save contains exactly 1000 entries, namely the most
recent 1000 in chronological order.  (`record_all` yields the
persisted history after the last save; every prefix of a longer
session is itself such a sequence.) -/
theorem claim_C2_history_cap (cs : List HistEntry) (h : 1000 < cs.length) :
    (record_all cs).length = 1000 ∧
    record_all cs = cs.drop (cs.length - 1000) := by
  refine ⟨?_, record_all_eq cs⟩
  rw [record_all_eq, List.length_drop]
  omega

/-- Witness for C2: a session of 1001 commands keeps exactly the last
1000. -/
theorem claim_C2_witness :
    1000 < (List.replicate 1001 (⟨"t", "c", "i", true, "d"⟩ : HistEntry)).length ∧
    ((record_all (List.replicate 1001 (⟨"t", "c", "i", true, "d"⟩ : HistEntry))).length = 1000 ∧
     record_all (List.replicate 1001 (⟨"t", "c", "i", true, "d"⟩ : HistEntry)) =
       (List.replicate 1001 (⟨"t", "c", "i", true, "d"⟩ : HistEntry)).drop
         ((List.replicate 1001 (⟨"t", "c", "i", true, "d"⟩ : HistEntry)).length - 1000)) := by
  have h : 1000 < (List.replicate 1001 (⟨"t", "c", "i", true, "d"⟩ : HistEntry)).length := by
    rw [List.length_replicate]
    omega
  exact ⟨h, claim_C2_history_cap _ h⟩

/-- C3: the detected project type follows the fixed precedence
Node > Python > Rust > Go > Make > unknown: the first marker file
present (`package.json`; `requirements.txt`/`setup.py`; `Cargo.toml`;
`go.mod`; `Makefile`) decides the type; in particular a directory
containing both `package.json` and `requirements.txt` is `node`. -/
theorem claim_C3_detect_precedence (d : Markers) :
    (d.packageJson = true → detect_project_type d = "node") ∧
    (d.packageJson = false → (d.requirementsTxt = true ∨ d.setupPy = true) →
      detect_project_type d = "python") ∧
    (d.packageJson = false → d.requirementsTxt = false → d.setupPy = false →
      d.cargoToml = true → detect_project_type d = "rust") ∧
    (d.packageJson = false → d.requirementsTxt = false → d.setupPy = false →
      d.cargoToml = false → d.goMod = true → detect_project_type d = "go") ∧
    (d.packageJson = false → d.requirementsTxt = false → d.setupPy = false →
      d.cargoToml = false → d.goMod = false → d.makefile = true →
      detect_project_type d = "make") ∧
    (d.packageJson = false → d.requirementsTxt = false → d.setupPy = false →
      d.cargoToml = false → d.goMod = false → d.makefile = false →
      detect_project_type d = "unknown") := by
  refine ⟨fun h1 => ?_, fun h1 h2 => ?_, fun h1 h2 h3 h4 => ?_,
          fun h1 h2 h3 h4 h5 => ?_, fun h1 h2 h3 h4 h5 h6 => ?_,
          fun h1 h2 h3 h4 h5 h6 => ?_⟩
  · simp [detect_project_type, h1]
  · rcases h2 with h2 | h2 <;> simp [detect_project_type, h1, h2]
  all_goals simp [detect_project_type, h1, h2, h3, h4]
  · simp [h5]
  · simp [h5, h6]
  · simp [h5, h6]

/-- Witness for C3: both `package.json` and `requirements.txt` present
gives `node`; only Python markers gives `python`; nothing gives
`unknown`. -/
theorem claim_C3_witness :
    detect_project_type ⟨true, true, false, false, false, false⟩ = "node" ∧
    detect_project_type ⟨false, true, false, false, false, false⟩ = "python" ∧
    detect_project_type ⟨false, false, false, false, false, false⟩ = "unknown" := by
  refine ⟨(claim_C3_detect_precedence _).1 rfl,
          (claim_C3_detect_precedence _).2.1 rfl (Or.inl rfl),
          (claim_C3_detect_precedence _).2.2.2.2.2 rfl rfl rfl rfl rfl rfl⟩

/-- C7: for every `install_package` execution with a non-empty package
list, the handler reaches the spawn with a command chosen by marker
files: `package.json` present ⇒ `npm install <packages>`; otherwise
`requirements.txt` or `setup.py` present ⇒ `pip install <packages>`;
otherwise the system package manager
`sudo pacman -S --noconfirm <packages>`. -/
theorem claim_C7_install_toolchain (d : Markers) (packages : List String)
    (h : packages ≠ []) :
    install_package d packages = .ok (install_command d packages) ∧
    (d.packageJson = true →
      install_command d packages = (["npm", "install"] ++ packages, "npm")) ∧
    (d.packageJson = false → (d.requirementsTxt = true ∨ d.setupPy = true) →
      install_command d packages = (["pip", "install"] ++ packages, "pip")) ∧
    (d.packageJson = false → d.requirementsTxt = false → d.setupPy = false →
      install_command d packages =
        (["sudo", "pacman", "-S", "--noconfirm"] ++ packages, "pacman")) := by
  refine ⟨?_, fun h1 => ?_, fun h1 h2 => ?_, fun h1 h2 h3 => ?_⟩
  · simp [install_package, h]
  · simp [install_command, h1]
  · rcases h2 with h2 | h2 <;> simp [install_command, h1, h2]
  · simp [install_command, h1, h2, h3]

/-- Witness for C7: in a directory with only `package.json`,
installing `numpy` spawns `npm install numpy`. -/
theorem claim_C7_witness :
    (["numpy"] : List String) ≠ [] ∧
    (install_package ⟨true, false, false, false, false, false⟩ ["numpy"] =
      .ok (install_command ⟨true, false, false, false, false, false⟩ ["numpy"]) ∧
     install_command ⟨true, false, false, false, false, false⟩ ["numpy"] =
       (["npm", "install", "numpy"], "npm")) := by
  have h : (["numpy"] : List String) ≠ [] := by simp
  have H := claim_C7_install_toolchain ⟨true, false, false, false, false, false⟩ ["numpy"] h
  exact ⟨h, H.1, H.2.1 rfl⟩

/-- C8: `save(load())` is idempotent — for on-disk context and history
files holding valid JSON (history an array of at most 1000 entries),
constructing the manager (which loads them) and immediately saving
writes files whose parsed structure equals the loaded one, and a
subsequent load yields the same state. -/
theorem claim_C8_save_load_idempotent (c : JVal) (hs : List JVal)
    (editor shell : String) (hlen : hs.length ≤ 1000) :
    save_files (load_state (some c) (some hs) editor shell) = (c, hs) ∧
    load_state (some (save_files (load_state (some c) (some hs) editor shell)).1)
        (some (save_files (load_state (some c) (some hs) editor shell)).2)
        editor shell =
      load_state (some c) (some hs) editor shell := by
  have h1 : save_files (load_state (some c) (some hs) editor shell) = (c, hs) := by
    unfold save_files load_state load_context load_history save_truncate_json
    simp only [Option.getD_some]
    rw [if_neg (by omega)]
  exact ⟨h1, by rw [h1]⟩

/-- Witness for C8 on a small concrete context and one-entry history. -/
theorem claim_C8_witness :
    ([JVal.str "entry"] : List JVal).length ≤ 1000 ∧
    (save_files (load_state (some (JVal.obj [("project_type", JVal.null)]))
        (some [JVal.str "entry"]) "vim" "/bin/bash") =
      (JVal.obj [("project_type", JVal.null)], [JVal.str "entry"]) ∧
     load_state
        (some (save_files (load_state (some (JVal.obj [("project_type", JVal.null)]))
          (some [JVal.str "entry"]) "vim" "/bin/bash")).1)
        (some (save_files (load_state (some (JVal.obj [("project_type", JVal.null)]))
          (some [JVal.str "entry"]) "vim" "/bin/bash")).2) "vim" "/bin/bash" =
      load_state (some (JVal.obj [("project_type", JVal.null)]))
        (some [JVal.str "entry"]) "vim" "/bin/bash") := by
  have hlen : ([JVal.str "entry"] : List JVal).length ≤ 1000 := by simp
  exact ⟨hlen, claim_C8_save_load_idempotent _ _ "vim" "/bin/bash" hlen⟩

/-- C9: `execute("change_directory", {path: "/nonexistent"})`, when
the path does not exist (`os.chdir` raises `FileNotFoundError`),
returns a result with `success = false` and an error message
containing `"not found"`. -/
theorem claim_C9_cd_not_found (home : String) (chdir : String → ChdirOutcome)
    (h : chdir "/nonexistent" = .notFound) :
    (change_directory home chdir (some "/nonexistent")).success = false ∧
    containsSub ((change_directory home chdir (some "/nonexistent")).error.getD "").toList
      "not found".toList = true := by
  have hexp : expanduser home "/nonexistent" = "/nonexistent" := by
    unfold expanduser
    rw [if_neg (by decide), if_neg (by decide)]
  unfold change_directory
  simp only [Option.getD_some, hexp, h]
  exact ⟨trivial, by decide⟩

/-- Witness for C9 on a filesystem where every chdir fails with
`FileNotFoundError`. -/
theorem claim_C9_witness :
    ((fun _ => ChdirOutcome.notFound) : String → ChdirOutcome) "/nonexistent" =
      ChdirOutcome.notFound ∧
    ((change_directory "/root" (fun _ => ChdirOutcome.notFound)
        (some "/nonexistent")).success = false ∧
     containsSub ((change_directory "/root" (fun _ => ChdirOutcome.notFound)
        (some "/nonexistent")).error.getD "").toList "not found".toList = true) := by
  exact ⟨rfl, claim_C9_cd_not_found "/root" _ rfl⟩

/-- C10: if a file or directory with the requested project name
(`params['name']`, defaulting to `myproject`) already exists in the
current working directory, `create_project` returns
`{success: false, error: "Directory <name> already exists"}` and is
atomic on this error: it creates nothing and leaves the working
directory unchanged. -/
theorem claim_C10_create_project_exists (params : List (String × String))
    (st : FsState)
    (h : st.existing.contains (joinPath st.cwd (param_get params "name" "myproject")) = true) :
    create_project params st =
      ({ success := false,
         error := some ("Directory " ++ param_get params "name" "myproject" ++
                        " already exists") }, st) := by
  unfold create_project
  rw [if_pos h]

/-- Witness for C10: with no `name` parameter and `myproject` already
present in the working directory, the handler errors and the state is
untouched. -/
theorem claim_C10_witness :
    (FsState.mk "/home/dev" ["/home/dev/myproject"]).existing.contains
      (joinPath "/home/dev" (param_get [] "name" "myproject")) = true ∧
    create_project [] (FsState.mk "/home/dev" ["/home/dev/myproject"]) =
      ({ success := false,
         error := some "Directory myproject already exists" },
       FsState.mk "/home/dev" ["/home/dev/myproject"]) := by
  have h : (FsState.mk "/home/dev" ["/home/dev/myproject"]).existing.contains
      (joinPath "/home/dev" (param_get [] "name" "myproject")) = true := by decide
  exact ⟨h, (claim_C10_create_project_exists [] _ h).trans (by decide)⟩
